import Mathlib

/-!
Shallow embedding of the two download scripts of the repository
(`download_stock_images.py` and `download_service_images.py`).

The filesystem is modelled as a pair of maps (existing directories, file
contents); the HTTP layer as an oracle from URL to either a response
(status, body) or a raised transport exception; a second oracle says which
file-open calls raise an OSError.  Console output, HTTP requests and file
writes are collected as an event trace.  Python's `try`/`except` in
`download_image` is modelled by a fallible body (`download_image_body`)
whose error carries the partial state, caught by `download_image`; the
service script has no handler, so its run is an `Except` value and an
error means the process dies with a non-zero exit code.
-/

namespace Dl

/-- Observable actions of a script run: console prints, HTTP GETs issued,
and file writes (path and content). -/
inductive Event where
  | printed (s : String)
  | requested (url : String)
  | wrote (path : String) (content : String)
deriving DecidableEq, Repr

/-- Outcome of one `requests.get` call: a response with a status code and a
body, or a raised transport exception with a message. -/
inductive FetchResult where
  | response (status : Nat) (body : String)
  | raised (msg : String)
deriving DecidableEq, Repr

/-- The external world: what each GET returns, and which file-open calls
raise an OSError. -/
structure Env where
  fetch : String → FetchResult
  writeFails : String → Bool

/-- Filesystem state: which directories exist and what each file contains. -/
structure FS where
  dirExists : String → Bool
  files : String → Option String

/-- The empty filesystem. -/
def FS.empty : FS := ⟨fun _ => false, fun _ => none⟩

/-- `open(p, "wb"/"w")` followed by a full write: truncate/overwrite. -/
def FS.write (fs : FS) (p c : String) : FS :=
  ⟨fs.dirExists, fun q => if q = p then some c else fs.files q⟩

/-- `os.makedirs(d, exist_ok=b)`: raises FileExistsError when the directory
exists and `exist_ok` is false, otherwise records the directory. -/
def FS.makedirs (fs : FS) (d : String) (exist_ok : Bool) : Except String FS :=
  if fs.dirExists d && !exist_ok then .error "FileExistsError"
  else .ok ⟨fun q => if q = d then true else fs.dirExists q, fs.files⟩

/-- The output directory of `download_stock_images.py`. -/
def public_dir : String := "client/public"

/-- The body of `download_image`'s `try` block: GET the url; on status 200
create `client/public` when missing (guarded by `os.path.exists`) and write
the response body to `client/public/<filename>`.  An `.error` carries the
exception message together with the filesystem and events at the raise
point, so the handler can resume from them. -/
def download_image_body (env : Env) (url filename : String) (fs : FS) :
    Except (String × FS × List Event) (FS × List Event) :=
  match env.fetch url with
  | .raised msg => .error (msg, fs, [.requested url])
  | .response status body =>
    if status = 200 then
      match (if fs.dirExists public_dir then .ok fs else fs.makedirs public_dir false :
          Except String FS) with
      | .error e => .error (e, fs, [.requested url])
      | .ok fs1 =>
        let filepath := public_dir ++ "/" ++ filename
        if env.writeFails filepath then .error ("OSError", fs1, [.requested url])
        else
          (.ok (fs1.write filepath body,
            [.requested url, .wrote filepath body,
             .printed ("Successfully saved " ++ filename)]))
    else
      .ok (fs, [.requested url])

/-- `download_image(url, filename)`: the `try` body with its `except` clause,
which turns any exception into a printed error line.  Total: the caller
never sees an exception. -/
def download_image (env : Env) (url filename : String) (fs : FS) : FS × List Event :=
  match download_image_body env url filename fs with
  | .ok r => r
  | .error (msg, fs1, evs) =>
      (fs1, evs ++ [.printed ("Error downloading " ++ filename ++ ": " ++ msg)])

/-- The hardcoded `images` dict of `download_stock_images`, in insertion
order: filename ↦ URL. -/
def stockImages : List (String × String) :=
  [("yacht-hero.jpg", "https://images.unsplash.com/photo-1567899378494-47b22a2ae96a?w=1200&q=80"),
   ("featured-yacht.jpg", "https://images.unsplash.com/photo-1569263979104-865ab7cd8d13?w=800&q=80"),
   ("diving.jpg", "https://images.unsplash.com/photo-1544551763-46a013bb70d5?w=800&q=80"),
   ("resort.jpg", "https://images.unsplash.com/photo-1582719478250-c89cae4dc85b?w=800&q=80")]

/-- The `for filename, url in images.items()` loop of `download_stock_images`:
print a progress line, then call `download_image`. -/
def stock_loop (env : Env) (items : List (String × String)) (fs : FS) : FS × List Event :=
  match items with
  | [] => (fs, [])
  | (filename, url) :: rest =>
    let r1 := download_image env url filename fs
    let r2 := stock_loop env rest r1.1
    (r2.1, Event.printed ("Downloading " ++ filename ++ "...") :: r1.2 ++ r2.2)

/-- `download_stock_images()`: the loop over the hardcoded dict. -/
def download_stock_images (env : Env) (fs : FS) : FS × List Event :=
  stock_loop env stockImages fs

/-- The whole `download_stock_images.py` run.  Every fallible statement is
inside `download_image`'s `try`/`except`; the remaining top-level statements
(dict construction, `print`, iteration) cannot raise, so the script always
terminates normally. -/
def stock_script (env : Env) (fs : FS) : Except (String × FS × List Event) (FS × List Event) :=
  .ok (download_stock_images env fs)

/-- The hardcoded `IMAGE_URLS` table of `download_service_images.py`. -/
def IMAGE_URLS : List (String × List String) :=
  [("water_skiing",
    ["https://storage.googleapis.com/etoile-yachts.firebasestorage.app/service-addons/water-skiing-1.jpg",
     "https://storage.googleapis.com/etoile-yachts.firebasestorage.app/service-addons/water-skiing-2.jpg"]),
   ("flyboard",
    ["https://storage.googleapis.com/etoile-yachts.firebasestorage.app/service-addons/flyboard-1.jpg",
     "https://storage.googleapis.com/etoile-yachts.firebasestorage.app/service-addons/flyboard-2.jpg"]),
   ("dining",
    ["https://storage.googleapis.com/etoile-yachts.firebasestorage.app/service-addons/private-dining-1.jpg",
     "https://storage.googleapis.com/etoile-yachts.firebasestorage.app/service-addons/private-dining-2.jpg"]),
   ("catering",
    ["https://storage.googleapis.com/etoile-yachts.firebasestorage.app/service-addons/catering-1.jpg",
     "https://storage.googleapis.com/etoile-yachts.firebasestorage.app/service-addons/catering-2.jpg"])]

/-- `f"temp_service_images/{category}_{n}.jpg"` (the script uses `n = i+1`
with `i` the 0-based enumeration index). -/
def serviceFilename (category : String) (n : Nat) : String :=
  "temp_service_images/" ++ category ++ "_" ++ toString n ++ ".jpg"

/-- `f"Placeholder for {category} image {n}"`. -/
def placeholderText (category : String) (n : Nat) : String :=
  "Placeholder for " ++ category ++ " image " ++ toString n

/-- The inner `for i, url in enumerate(urls)` loop of the service script:
print, open the placeholder file for writing (no handler: an OSError
aborts the script), write the placeholder text, print, sleep.  `i` is the
0-based position of the head of `urls`.  The `sleep(0.1)` has no modelled
effect. -/
def service_items (env : Env) (category : String) (i : Nat) (urls : List String) (fs : FS) :
    Except (String × FS × List Event) (FS × List Event) :=
  match urls with
  | [] => .ok (fs, [])
  | url :: rest =>
    let filename := serviceFilename category (i + 1)
    let ev0 := Event.printed ("  Downloading " ++ url ++ " to " ++ filename)
    if env.writeFails filename then .error ("OSError", fs, [ev0])
    else
      let content := placeholderText category (i + 1)
      let fs1 := fs.write filename content
      let evs1 := [ev0, Event.wrote filename content,
        Event.printed ("  Successfully created placeholder for " ++ filename)]
      match service_items env category (i + 1) rest fs1 with
      | .ok r => .ok (r.1, evs1 ++ r.2)
      | .error (m, fs2, evs2) => .error (m, fs2, evs1 ++ evs2)

/-- The outer `for category, urls in IMAGE_URLS.items()` loop. -/
def service_categories (env : Env) (table : List (String × List String)) (fs : FS) :
    Except (String × FS × List Event) (FS × List Event) :=
  match table with
  | [] => .ok (fs, [])
  | (category, urls) :: rest =>
    let ev0 := Event.printed ("Downloading " ++ category ++ " images...")
    match service_items env category 0 urls fs with
    | .error (m, fs1, evs1) => .error (m, fs1, ev0 :: evs1)
    | .ok (fs1, evs1) =>
      match service_categories env rest fs1 with
      | .ok r => .ok (r.1, ev0 :: evs1 ++ r.2)
      | .error (m, fs2, evs2) => .error (m, fs2, ev0 :: evs1 ++ evs2)

/-- The whole `download_service_images.py` run, parametric in the URL table
(the script hardcodes `IMAGE_URLS`): `os.makedirs("temp_service_images",
exist_ok=True)`, the nested loops, and the two final prints. -/
def service_script (env : Env) (table : List (String × List String)) (fs : FS) :
    Except (String × FS × List Event) (FS × List Event) :=
  match fs.makedirs "temp_service_images" true with
  | .error m => .error (m, fs, [])
  | .ok fs0 =>
    match service_categories env table fs0 with
    | .error e => .error e
    | .ok (fs1, evs) =>
      (.ok (fs1, evs ++
        [.printed "\nPlaceholder images created in the temp_service_images directory",
         .printed "In a real scenario, you would download actual images from the provided Google Drive URLs"]))

/-- Process exit code of a modelled script run: 0 on normal completion, 1
when an uncaught exception kills the interpreter. -/
def script_exit (r : Except (String × FS × List Event) (FS × List Event)) : Nat :=
  match r with
  | .ok _ => 0
  | .error _ => 1

/-- Filesystem state at the end of a run (for an aborted run, at the raise
point). -/
def resultFS (r : Except (String × FS × List Event) (FS × List Event)) : FS :=
  match r with
  | .ok x => x.1
  | .error e => e.2.1

/-- Event trace of a run (for an aborted run, the trace up to the raise
point). -/
def resultEvents (r : Except (String × FS × List Event) (FS × List Event)) : List Event :=
  match r with
  | .ok x => x.2
  | .error e => e.2.2

/-- The URLs actually requested over the network, in order. -/
def requestedUrls (evs : List Event) : List String :=
  evs.filterMap fun e => match e with | .requested u => some u | _ => none

/-- The file paths actually written, in order. -/
def writtenPaths (evs : List Event) : List String :=
  evs.filterMap fun e => match e with | .wrote p _ => some p | _ => none

/-- A GET against `url` fails from the point of view of `download_image`:
either the transport raises, or the response status is not 200. -/
def itemFails (env : Env) (url : String) : Prop :=
  (∃ msg, env.fetch url = .raised msg) ∨
  (∃ s b, env.fetch url = .response s b ∧ s ≠ 200)

/-- World where every GET returns 200 with body "BODY" and writes succeed. -/
def envOk : Env := ⟨fun _ => .response 200 "BODY", fun _ => false⟩

/-- World where every GET returns 200 with body "SECOND" and writes
succeed: the same source at a later time. -/
def envOk2 : Env := ⟨fun _ => .response 200 "SECOND", fun _ => false⟩

/-- World where every GET returns 204 No Content (a 2xx success status). -/
def env204 : Env := ⟨fun _ => .response 204 "SOMEBYTES", fun _ => false⟩

/-- World where every GET returns 404. -/
def env404 : Env := ⟨fun _ => .response 404 "not found", fun _ => false⟩

/-- World where every GET raises a transport error. -/
def envAllRaise : Env := ⟨fun _ => .raised "connection refused", fun _ => false⟩

/-- World where every file-open raises an OSError (for example, a read-only
disk); GETs also fail, so every item fails. -/
def envBadWrite : Env := ⟨fun _ => .raised "connection refused", fun _ => true⟩

/-- World giving 200 with distinct bodies for the two `alphaTable` URLs. -/
def envAlpha : Env :=
  ⟨fun u => if u = "http://x/a1.jpg" then .response 200 "BODY1" else .response 200 "BODY2",
   fun _ => false⟩

/-- The two-URL table of the end-to-end scenario of the spec. -/
def alphaTable : List (String × List String) :=
  [("alpha", ["http://x/a1.jpg", "http://x/a2.jpg"])]

/-- A table with the same keys and list lengths as `alphaTable` but
different URL strings. -/
def alphaTableOther : List (String × List String) :=
  [("alpha", ["http://y/q1.png", "http://y/q2.png"])]

/-- The key and list length of each table entry: what the placeholder
script's output may depend on. -/
def tableShape (t : List (String × List String)) : List (String × Nat) :=
  t.map fun p => (p.1, p.2.length)

end Dl

namespace Dl

theorem requestedUrls_append (a b : List Event) :
    requestedUrls (a ++ b) = requestedUrls a ++ requestedUrls b := by
  simp [requestedUrls, List.filterMap_append]

theorem writtenPaths_append (a b : List Event) :
    writtenPaths (a ++ b) = writtenPaths a ++ writtenPaths b := by
  simp [writtenPaths, List.filterMap_append]

theorem download_image_raised (env : Env) (url filename msg : String) (fs : FS)
    (h : env.fetch url = .raised msg) :
    download_image env url filename fs =
      (fs, [.requested url,
            .printed ("Error downloading " ++ filename ++ ": " ++ msg)]) := by
  simp [download_image, download_image_body, h]

theorem download_image_non200 (env : Env) (url filename : String) (status : Nat)
    (body : String) (fs : FS)
    (h : env.fetch url = .response status body) (hs : status ≠ 200) :
    download_image env url filename fs = (fs, [.requested url]) := by
  simp [download_image, download_image_body, h, hs]

theorem download_image_200 (env : Env) (url filename body : String) (fs : FS)
    (h : env.fetch url = .response 200 body)
    (hw : env.writeFails (public_dir ++ "/" ++ filename) = false) :
    (download_image env url filename fs).1.files (public_dir ++ "/" ++ filename)
        = some body ∧
    (∀ q, q ≠ public_dir ++ "/" ++ filename →
        (download_image env url filename fs).1.files q = fs.files q) ∧
    (download_image env url filename fs).1.dirExists public_dir = true ∧
    (download_image env url filename fs).2 =
      [.requested url, .wrote (public_dir ++ "/" ++ filename) body,
       .printed ("Successfully saved " ++ filename)] := by
  cases hd : fs.dirExists public_dir <;>
    simp [download_image, download_image_body, h, hw, hd, FS.makedirs, FS.write] <;>
    intro q hq <;> simp [hq]

theorem download_image_fails_unchanged (env : Env) (url filename : String) (fs : FS)
    (h : itemFails env url) :
    (download_image env url filename fs).1 = fs := by
  rcases h with ⟨msg, hm⟩ | ⟨s, b, hr, hs⟩
  · rw [download_image_raised env url filename msg fs hm]
  · rw [download_image_non200 env url filename s b fs hr hs]

theorem download_image_write_error (env : Env) (url filename body : String) (fs : FS)
    (h : env.fetch url = .response 200 body)
    (hw : env.writeFails (public_dir ++ "/" ++ filename) = true) :
    (download_image env url filename fs).2 =
      [.requested url,
       .printed ("Error downloading " ++ filename ++ ": " ++ "OSError")] := by
  cases hd : fs.dirExists public_dir <;>
    simp [download_image, download_image_body, h, hw, hd, FS.makedirs]

theorem download_image_requests (env : Env) (url filename : String) (fs : FS) :
    requestedUrls (download_image env url filename fs).2 = [url] := by
  cases hf : env.fetch url with
  | raised msg =>
    rw [download_image_raised env url filename msg fs hf]; simp [requestedUrls]
  | response status body =>
    by_cases hs : status = 200
    · subst hs
      by_cases hw : env.writeFails (public_dir ++ "/" ++ filename)
      · rw [download_image_write_error env url filename body fs hf hw]
        simp [requestedUrls]
      · have hw0 : env.writeFails (public_dir ++ "/" ++ filename) = false := by
          simpa using hw
        rw [(download_image_200 env url filename body fs hf hw0).2.2.2]
        simp [requestedUrls]
    · rw [download_image_non200 env url filename status body fs hf hs]
      simp [requestedUrls]

theorem download_image_writes (env : Env) (url filename : String) (fs : FS) :
    writtenPaths (download_image env url filename fs).2 = [] ∨
    writtenPaths (download_image env url filename fs).2
      = [public_dir ++ "/" ++ filename] := by
  cases hf : env.fetch url with
  | raised msg =>
    rw [download_image_raised env url filename msg fs hf]; left; simp [writtenPaths]
  | response status body =>
    by_cases hs : status = 200
    · subst hs
      by_cases hw : env.writeFails (public_dir ++ "/" ++ filename)
      · rw [download_image_write_error env url filename body fs hf hw]
        left; simp [writtenPaths]
      · have hw0 : env.writeFails (public_dir ++ "/" ++ filename) = false := by
          simpa using hw
        rw [(download_image_200 env url filename body fs hf hw0).2.2.2]
        right; simp [writtenPaths]
    · rw [download_image_non200 env url filename status body fs hf hs]
      left; simp [writtenPaths]

theorem stock_loop_requests (env : Env) (items : List (String × String)) (fs : FS) :
    requestedUrls (stock_loop env items fs).2 = items.map Prod.snd := by
  induction items generalizing fs with
  | nil => simp [stock_loop, requestedUrls]
  | cons it rest ih =>
    obtain ⟨fn, url⟩ := it
    simp only [stock_loop, List.map_cons]
    rw [show (Event.printed ("Downloading " ++ fn ++ "...") ::
          (download_image env url fn fs).2 ++
          (stock_loop env rest (download_image env url fn fs).1).2)
        = ([Event.printed ("Downloading " ++ fn ++ "...")] ++
            (download_image env url fn fs).2) ++
          (stock_loop env rest (download_image env url fn fs).1).2 by simp]
    rw [requestedUrls_append, requestedUrls_append]
    rw [download_image_requests, ih]
    simp [requestedUrls]

theorem stock_loop_writes_sublist (env : Env) (items : List (String × String)) (fs : FS) :
    (writtenPaths (stock_loop env items fs).2).Sublist
      (items.map fun it => public_dir ++ "/" ++ it.1) := by
  induction items generalizing fs with
  | nil => simp [stock_loop, writtenPaths]
  | cons it rest ih =>
    obtain ⟨fn, url⟩ := it
    simp only [stock_loop, List.map_cons]
    rw [show (Event.printed ("Downloading " ++ fn ++ "...") ::
          (download_image env url fn fs).2 ++
          (stock_loop env rest (download_image env url fn fs).1).2)
        = ([Event.printed ("Downloading " ++ fn ++ "...")] ++
            (download_image env url fn fs).2) ++
          (stock_loop env rest (download_image env url fn fs).1).2 by simp]
    rw [writtenPaths_append, writtenPaths_append]
    have hw := download_image_writes env url fn fs
    have htail := ih (download_image env url fn fs).1
    rcases hw with hw | hw <;> rw [hw]
    · simpa [writtenPaths] using
        htail.trans (List.sublist_cons_self (public_dir ++ "/" ++ fn)
          (List.map (fun it => public_dir ++ "/" ++ it.1) rest))
    · simpa [writtenPaths] using List.Sublist.cons₂ (public_dir ++ "/" ++ fn) htail

theorem stock_loop_all_fail (env : Env) (items : List (String × String)) (fs : FS)
    (h : ∀ p ∈ items, itemFails env p.2) :
    (stock_loop env items fs).1 = fs := by
  induction items generalizing fs with
  | nil => rfl
  | cons it rest ih =>
    obtain ⟨fn, url⟩ := it
    simp only [stock_loop]
    rw [download_image_fails_unchanged env url fn fs (h (fn, url) (List.mem_cons_self _ _))]
    exact ih fs fun p hp => h p (List.mem_cons_of_mem _ hp)

theorem makedirs_exist_ok (fs : FS) (d : String) :
    fs.makedirs d true =
      .ok ⟨fun q => if q = d then true else fs.dirExists q, fs.files⟩ := by
  simp [FS.makedirs]

theorem service_items_ok (env : Env) (category : String) (i : Nat) (urls : List String)
    (fs : FS) (hw : ∀ p, env.writeFails p = false) :
    ∃ r, service_items env category i urls fs = .ok r := by
  induction urls generalizing i fs with
  | nil => exact ⟨(fs, []), rfl⟩
  | cons url rest ih =>
    obtain ⟨r, hr⟩ := ih (i + 1)
      (fs.write (serviceFilename category (i + 1)) (placeholderText category (i + 1)))
    cases h : service_items env category i (url :: rest) fs with
    | ok r2 => exact ⟨r2, rfl⟩
    | error err => exfalso; simp [service_items, hw, hr] at h

theorem service_categories_ok (env : Env) (table : List (String × List String))
    (fs : FS) (hw : ∀ p, env.writeFails p = false) :
    ∃ r, service_categories env table fs = .ok r := by
  induction table generalizing fs with
  | nil => exact ⟨(fs, []), rfl⟩
  | cons p rest ih =>
    obtain ⟨cat, urls⟩ := p
    obtain ⟨r1, hr1⟩ := service_items_ok env cat 0 urls fs hw
    obtain ⟨fs1, evs1⟩ := r1
    obtain ⟨r2, hr2⟩ := ih fs1
    obtain ⟨fs2, evs2⟩ := r2
    cases h : service_categories env ((cat, urls) :: rest) fs with
    | ok r3 => exact ⟨r3, rfl⟩
    | error err => exfalso; simp [service_categories, hr1, hr2] at h

theorem service_script_ok (env : Env) (table : List (String × List String))
    (fs : FS) (hw : ∀ p, env.writeFails p = false) :
    ∃ r, service_script env table fs = .ok r := by
  obtain ⟨r, hr⟩ := service_categories_ok env table
    ⟨fun q => if q = "temp_service_images" then true else fs.dirExists q, fs.files⟩ hw
  obtain ⟨fs1, evs1⟩ := r
  cases h : service_script env table fs with
  | ok r2 => exact ⟨r2, rfl⟩
  | error err =>
    exfalso
    simp only [service_script, makedirs_exist_ok, hr] at h
    exact Except.noConfusion h

theorem service_items_events (env : Env) (category : String) (i : Nat)
    (urls : List String) (fs : FS) :
    ∀ e ∈ resultEvents (service_items env category i urls fs),
      (∀ u, e ≠ .requested u) ∧
      (∀ p c, e = .wrote p c →
        ∃ n, p = serviceFilename category n ∧ c = placeholderText category n) := by
  induction urls generalizing i fs with
  | nil => simp [service_items, resultEvents]
  | cons url rest ih =>
    intro e he
    by_cases hw : env.writeFails (serviceFilename category (i + 1)) = true
    · simp [service_items, hw, resultEvents] at he
      subst he; simp
    · have hw0 : env.writeFails (serviceFilename category (i + 1)) = false := by
        simpa using hw
      have ihe := ih (i + 1)
        (fs.write (serviceFilename category (i + 1)) (placeholderText category (i + 1)))
      cases hrec : service_items env category (i + 1) rest
          (fs.write (serviceFilename category (i + 1)) (placeholderText category (i + 1))) with
      | ok r =>
        simp [service_items, hw0, hrec, resultEvents] at he
        rcases he with he | he | he | he
        · subst he; simp
        · subst he
          exact ⟨by simp, fun p c hpc => by
            refine ⟨i + 1, ?_, ?_⟩ <;> simp [Event.wrote.injEq] at hpc <;> simp [hpc]⟩
        · subst he; simp
        · have := ihe e (by simpa [hrec, resultEvents] using he)
          exact this
      | error err =>
        obtain ⟨m, fs2, evs2⟩ := err
        simp [service_items, hw0, hrec, resultEvents] at he
        rcases he with he | he | he | he
        · subst he; simp
        · subst he
          exact ⟨by simp, fun p c hpc => by
            refine ⟨i + 1, ?_, ?_⟩ <;> simp [Event.wrote.injEq] at hpc <;> simp [hpc]⟩
        · subst he; simp
        · have := ihe e (by simpa [hrec, resultEvents] using he)
          exact this

theorem service_categories_events (env : Env) (table : List (String × List String))
    (fs : FS) :
    ∀ e ∈ resultEvents (service_categories env table fs),
      (∀ u, e ≠ .requested u) ∧
      (∀ p c, e = .wrote p c →
        ∃ cat n, p = serviceFilename cat n ∧ c = placeholderText cat n) := by
  induction table generalizing fs with
  | nil => simp [service_categories, resultEvents]
  | cons p rest ih =>
    obtain ⟨cat, urls⟩ := p
    intro e he
    cases h1 : service_items env cat 0 urls fs with
    | error err =>
      obtain ⟨m, fs1, evs1⟩ := err
      simp [service_categories, h1, resultEvents] at he
      rcases he with he | he
      · subst he; simp
      · have := service_items_events env cat 0 urls fs e
          (by simpa [h1, resultEvents] using he)
        exact ⟨this.1, fun p c hpc => (this.2 p c hpc).elim fun n hn => ⟨cat, n, hn⟩⟩
    | ok r =>
      obtain ⟨fs1, evs1⟩ := r
      cases h2 : service_categories env rest fs1 with
      | ok r2 =>
        obtain ⟨fs2, evs2⟩ := r2
        simp [service_categories, h1, h2, resultEvents] at he
        rcases he with he | he | he
        · subst he; simp
        · have := service_items_events env cat 0 urls fs e
            (by simpa [h1, resultEvents] using he)
          exact ⟨this.1, fun p c hpc => (this.2 p c hpc).elim fun n hn => ⟨cat, n, hn⟩⟩
        · have := ih fs1 e (by simpa [h2, resultEvents] using he)
          exact this
      | error err2 =>
        obtain ⟨m2, fs2, evs2⟩ := err2
        simp [service_categories, h1, h2, resultEvents] at he
        rcases he with he | he | he
        · subst he; simp
        · have := service_items_events env cat 0 urls fs e
            (by simpa [h1, resultEvents] using he)
          exact ⟨this.1, fun p c hpc => (this.2 p c hpc).elim fun n hn => ⟨cat, n, hn⟩⟩
        · have := ih fs1 e (by simpa [h2, resultEvents] using he)
          exact this

theorem service_script_events (env : Env) (table : List (String × List String))
    (fs : FS) :
    ∀ e ∈ resultEvents (service_script env table fs),
      (∀ u, e ≠ .requested u) ∧
      (∀ p c, e = .wrote p c →
        ∃ cat n, p = serviceFilename cat n ∧ c = placeholderText cat n) := by
  intro e he
  have hmk : fs.makedirs "temp_service_images" true =
      .ok ⟨fun q => if q = "temp_service_images" then true else fs.dirExists q, fs.files⟩ := by
    simp [FS.makedirs]
  set fs0 : FS :=
    ⟨fun q => if q = "temp_service_images" then true else fs.dirExists q, fs.files⟩ with hfs0
  cases h1 : service_categories env table fs0 with
  | ok r =>
    obtain ⟨fs1, evs1⟩ := r
    simp [service_script, hmk, h1, resultEvents] at he
    rcases he with he | he | he
    · exact service_categories_events env table fs0 e (by simpa [h1, resultEvents] using he)
    · subst he; simp
    · subst he; simp
  | error err =>
    obtain ⟨m, fs1, evs1⟩ := err
    simp [service_script, hmk, h1, resultEvents] at he
    exact service_categories_events env table fs0 e (by simpa [h1, resultEvents] using he)

theorem service_items_shape (env : Env) (category : String)
    (hw : ∀ p, env.writeFails p = false) :
    ∀ (u1 u2 : List String) (i : Nat) (fs : FS), u1.length = u2.length →
    ∃ fsR evs1 evs2, service_items env category i u1 fs = .ok (fsR, evs1) ∧
      service_items env category i u2 fs = .ok (fsR, evs2) := by
  intro u1
  induction u1 with
  | nil =>
    intro u2 i fs hlen
    cases u2 with
    | nil => exact ⟨fs, [], [], rfl, rfl⟩
    | cons b rest2 => simp at hlen
  | cons a rest ih =>
    intro u2 i fs hlen
    cases u2 with
    | nil => simp at hlen
    | cons b rest2 =>
      simp only [List.length_cons, Nat.succ.injEq] at hlen
      obtain ⟨fsR, e1, e2, h1, h2⟩ := ih rest2 (i + 1)
        (fs.write (serviceFilename category (i + 1)) (placeholderText category (i + 1)))
        hlen
      refine ⟨fsR,
        Event.printed ("  Downloading " ++ a ++ " to " ++ serviceFilename category (i + 1)) ::
          Event.wrote (serviceFilename category (i + 1)) (placeholderText category (i + 1)) ::
          Event.printed ("  Successfully created placeholder for " ++
            serviceFilename category (i + 1)) :: e1,
        Event.printed ("  Downloading " ++ b ++ " to " ++ serviceFilename category (i + 1)) ::
          Event.wrote (serviceFilename category (i + 1)) (placeholderText category (i + 1)) ::
          Event.printed ("  Successfully created placeholder for " ++
            serviceFilename category (i + 1)) :: e2, ?_, ?_⟩ <;>
        simp [service_items, hw, h1, h2]

theorem service_categories_shape (env : Env) (hw : ∀ p, env.writeFails p = false) :
    ∀ (t1 t2 : List (String × List String)) (fs : FS), tableShape t1 = tableShape t2 →
    ∃ fsR evs1 evs2, service_categories env t1 fs = .ok (fsR, evs1) ∧
      service_categories env t2 fs = .ok (fsR, evs2) := by
  intro t1
  induction t1 with
  | nil =>
    intro t2 fs h
    cases t2 with
    | nil => exact ⟨fs, [], [], rfl, rfl⟩
    | cons q rest2 => simp [tableShape] at h
  | cons p rest ih =>
    intro t2 fs h
    cases t2 with
    | nil => simp [tableShape] at h
    | cons q rest2 =>
      obtain ⟨cat1, urls1⟩ := p
      obtain ⟨cat2, urls2⟩ := q
      simp only [tableShape, List.map_cons, List.cons.injEq, Prod.mk.injEq] at h
      obtain ⟨⟨hcat, hlen⟩, hrest⟩ := h
      subst hcat
      obtain ⟨fs1, a1, a2, h1, h2⟩ := service_items_shape env cat1 hw urls1 urls2 0 fs hlen
      obtain ⟨fsR, b1, b2, g1, g2⟩ := ih rest2 fs1 (by simpa [tableShape] using hrest)
      refine ⟨fsR,
        Event.printed ("Downloading " ++ cat1 ++ " images...") :: (a1 ++ b1),
        Event.printed ("Downloading " ++ cat1 ++ " images...") :: (a2 ++ b2), ?_, ?_⟩ <;>
        simp [service_categories, h1, h2, g1, g2]

/-- C1 counterexample: the claim quantifies over every 2xx success status,
but `download_image` tests `status_code == 200`.  In a world returning
204 No Content (a 2xx status) with a non-empty body, no file appears at
the destination, refuting the claim at that concrete input. -/
theorem C1_counterexample :
    ¬ (∀ (env : Env) (url filename : String) (status : Nat) (body : String) (fs : FS),
        env.fetch url = .response status body →
        200 ≤ status → status ≤ 299 →
        env.writeFails (public_dir ++ "/" ++ filename) = false →
        (download_image env url filename fs).1.files (public_dir ++ "/" ++ filename)
          = some body) := by
  intro h
  have h204 := h env204 "http://x/img.jpg" "img.jpg" 204 "SOMEBYTES" FS.empty rfl
    (by norm_num) (by norm_num) rfl
  exact absurd h204 (by decide)

/-- C1 (amended): for every (source, destination) pair whose HTTP GET
returns a response with status exactly 200, `download_image` writes exactly
one file, at `client/public/<filename>`, whose bytes equal the full
response body, overwriting any existing file at that path; every other
path is untouched. -/
theorem C1_status200_writes_body (env : Env) (url filename body : String) (fs : FS)
    (h : env.fetch url = .response 200 body)
    (hw : env.writeFails (public_dir ++ "/" ++ filename) = false) :
    (download_image env url filename fs).1.files (public_dir ++ "/" ++ filename)
      = some body ∧
    (∀ q, q ≠ public_dir ++ "/" ++ filename →
      (download_image env url filename fs).1.files q = fs.files q) ∧
    writtenPaths (download_image env url filename fs).2
      = [public_dir ++ "/" ++ filename] := by
  obtain ⟨h1, h2, h3, h4⟩ := download_image_200 env url filename body fs h hw
  exact ⟨h1, h2, by rw [h4]; simp [writtenPaths]⟩

/-- Witness for the amended C1 at a concrete world and file. -/
theorem C1_status200_writes_body_witness :
    (download_image envOk "http://x/img.jpg" "img.jpg" FS.empty).1.files
        (public_dir ++ "/" ++ "img.jpg") = some "BODY" ∧
    (∀ q, q ≠ public_dir ++ "/" ++ "img.jpg" →
      (download_image envOk "http://x/img.jpg" "img.jpg" FS.empty).1.files q
        = FS.empty.files q) ∧
    writtenPaths (download_image envOk "http://x/img.jpg" "img.jpg" FS.empty).2
      = [public_dir ++ "/" ++ "img.jpg"] :=
  C1_status200_writes_body envOk "http://x/img.jpg" "img.jpg" "BODY" FS.empty rfl rfl

/-- C2: a non-2xx response leaves the filesystem unchanged and the trace is
just the GET (no exception escapes: `download_image` is a total function
because its whole body sits in the `try`); a raised transport error leaves
the filesystem unchanged and logs one error line; and the surrounding loop
still issues one GET per remaining pair, whatever the world does. -/
theorem C2_failure_handling (env : Env) (url filename : String) (fs : FS) :
    (∀ status body, env.fetch url = .response status body →
      ¬(200 ≤ status ∧ status ≤ 299) →
      (download_image env url filename fs).1 = fs ∧
      (download_image env url filename fs).2 = [.requested url]) ∧
    (∀ msg, env.fetch url = .raised msg →
      (download_image env url filename fs).1 = fs ∧
      (download_image env url filename fs).2 =
        [.requested url,
         .printed ("Error downloading " ++ filename ++ ": " ++ msg)]) ∧
    (∀ items fsA, requestedUrls (stock_loop env items fsA).2 = items.map Prod.snd) := by
  refine ⟨?_, ?_, fun items fsA => stock_loop_requests env items fsA⟩
  · intro status body h hs
    have hs200 : status ≠ 200 := by
      rintro rfl
      exact hs ⟨by norm_num, by norm_num⟩
    rw [download_image_non200 env url filename status body fs h hs200]
    exact ⟨rfl, rfl⟩
  · intro msg h
    rw [download_image_raised env url filename msg fs h]
    exact ⟨rfl, rfl⟩

/-- Witness for C2: a 404 world and an all-raising world, on the empty
filesystem. -/
theorem C2_failure_handling_witness :
    ((download_image env404 "http://x/a.jpg" "a.jpg" FS.empty).1 = FS.empty ∧
     (download_image env404 "http://x/a.jpg" "a.jpg" FS.empty).2
       = [.requested "http://x/a.jpg"]) ∧
    ((download_image envAllRaise "http://x/a.jpg" "a.jpg" FS.empty).1 = FS.empty ∧
     (download_image envAllRaise "http://x/a.jpg" "a.jpg" FS.empty).2 =
       [.requested "http://x/a.jpg",
        .printed ("Error downloading " ++ "a.jpg" ++ ": " ++ "connection refused")]) ∧
    requestedUrls (stock_loop envAllRaise stockImages FS.empty).2
      = stockImages.map Prod.snd :=
  ⟨(C2_failure_handling env404 "http://x/a.jpg" "a.jpg" FS.empty).1 404 "not found"
      rfl (by norm_num),
   (C2_failure_handling envAllRaise "http://x/a.jpg" "a.jpg" FS.empty).2.1
      "connection refused" rfl,
   (C2_failure_handling envAllRaise "http://x/a.jpg" "a.jpg" FS.empty).2.2
      stockImages FS.empty⟩

/-- C3 counterexample: in a world where every file-open raises an OSError
(and every GET also fails), the placeholder script dies on its first item
with an uncaught exception and the process exits 1, refuting the claim
that a run of either script in which every item fails still exits 0. -/
theorem C3_counterexample :
    envBadWrite.writeFails (serviceFilename "water_skiing" 1) = true ∧
    script_exit (service_script envBadWrite IMAGE_URLS FS.empty) = 1 := by decide

/-- C3 (amended): `download_stock_images.py` runs to completion and exits 0
in every world, even one where every GET raises and every write fails; the
placeholder script `download_service_images.py` exits 0 whenever its
filesystem writes succeed, but it has no exception handler, so a
filesystem error there is fatal. -/
theorem C3_exit_codes (envA envB : Env) (fsA fsB : FS)
    (hw : ∀ p, envB.writeFails p = false) :
    script_exit (stock_script envA fsA) = 0 ∧
    script_exit (service_script envB IMAGE_URLS fsB) = 0 := by
  refine ⟨rfl, ?_⟩
  obtain ⟨r, hr⟩ := service_script_ok envB IMAGE_URLS fsB hw
  simp [script_exit, hr]

/-- Witness for the amended C3: the stock script in the all-failing world,
the service script in a working world. -/
theorem C3_exit_codes_witness :
    script_exit (stock_script envBadWrite FS.empty) = 0 ∧
    script_exit (service_script envOk IMAGE_URLS FS.empty) = 0 :=
  C3_exit_codes envBadWrite envOk FS.empty FS.empty (fun _ => rfl)

/-- C4: running `download_image` twice against the same destination, both
fetches returning 200 (possibly with different bodies over time), leaves at
the destination exactly the body of the latest fetch: the `"wb"` write
truncates and overwrites, it does not append. -/
theorem C4_second_run_overwrites (env1 env2 : Env) (url filename b1 b2 : String)
    (fs : FS)
    (_h1 : env1.fetch url = .response 200 b1)
    (h2 : env2.fetch url = .response 200 b2)
    (_hw1 : env1.writeFails (public_dir ++ "/" ++ filename) = false)
    (hw2 : env2.writeFails (public_dir ++ "/" ++ filename) = false) :
    (download_image env2 url filename
        (download_image env1 url filename fs).1).1.files
      (public_dir ++ "/" ++ filename) = some b2 :=
  (download_image_200 env2 url filename b2
    (download_image env1 url filename fs).1 h2 hw2).1

/-- Witness for C4: first fetch yields "BODY", second "SECOND"; the final
content is "SECOND", not an append of the two. -/
theorem C4_second_run_overwrites_witness :
    (download_image envOk2 "u" "a.jpg"
        (download_image envOk "u" "a.jpg" FS.empty).1).1.files
      (public_dir ++ "/" ++ "a.jpg") = some "SECOND" :=
  C4_second_run_overwrites envOk envOk2 "u" "a.jpg" "BODY" "SECOND" FS.empty
    rfl rfl rfl rfl

/-- C5: on a successful call the destination directory exists by write time
(`os.makedirs` runs first when `os.path.exists` says it is missing) and the
write lands; a call with the directory already present succeeds the same
way; and `os.makedirs(..., exist_ok=True)` as used by the service script is
idempotent: a second call on the resulting state succeeds and changes
nothing. -/
theorem C5_directory_bootstrap (env : Env) (url filename body : String) (fs : FS)
    (h : env.fetch url = .response 200 body)
    (hw : env.writeFails (public_dir ++ "/" ++ filename) = false) :
    (download_image env url filename fs).1.dirExists public_dir = true ∧
    (download_image env url filename fs).1.files (public_dir ++ "/" ++ filename)
      = some body ∧
    (fs.dirExists public_dir = true →
      (download_image env url filename fs).1.files (public_dir ++ "/" ++ filename)
        = some body) ∧
    (∀ fsA : FS, ∃ fs1, fsA.makedirs "temp_service_images" true = .ok fs1 ∧
      fs1.makedirs "temp_service_images" true = .ok fs1) := by
  obtain ⟨h1, h2, h3, h4⟩ := download_image_200 env url filename body fs h hw
  refine ⟨h3, h1, fun _ => h1, fun fsA => ?_⟩
  refine ⟨⟨fun q => if q = "temp_service_images" then true else fsA.dirExists q, fsA.files⟩,
    makedirs_exist_ok fsA _, ?_⟩
  rw [makedirs_exist_ok]
  congr 2
  funext q
  by_cases hq : q = "temp_service_images" <;> simp [hq]

/-- Witness for C5 in a working world on the empty filesystem. -/
theorem C5_directory_bootstrap_witness :
    (download_image envOk "u" "a.jpg" FS.empty).1.dirExists public_dir = true ∧
    (download_image envOk "u" "a.jpg" FS.empty).1.files (public_dir ++ "/" ++ "a.jpg")
      = some "BODY" ∧
    (∃ fs1, FS.empty.makedirs "temp_service_images" true = .ok fs1 ∧
      fs1.makedirs "temp_service_images" true = .ok fs1) :=
  ⟨(C5_directory_bootstrap envOk "u" "a.jpg" "BODY" FS.empty rfl rfl).1,
   (C5_directory_bootstrap envOk "u" "a.jpg" "BODY" FS.empty rfl rfl).2.1,
   (C5_directory_bootstrap envOk "u" "a.jpg" "BODY" FS.empty rfl rfl).2.2.2 FS.empty⟩

/-- C6 counterexample: with the table `{"alpha": [two URLs]}` and a world
in which both URLs return 200 with bodies "BODY1"/"BODY2", the script that
owns that table shape (`download_service_images.py`) does write
`alpha_1.jpg`, but its content is the placeholder text, not the fetched
body, refuting "each containing the respective fetched body". -/
theorem C6_counterexample :
    envAlpha.fetch "http://x/a1.jpg" = .response 200 "BODY1" ∧
    envAlpha.fetch "http://x/a2.jpg" = .response 200 "BODY2" ∧
    (resultFS (service_script envAlpha alphaTable FS.empty)).files
        (serviceFilename "alpha" 1) = some (placeholderText "alpha" 1) ∧
    (resultFS (service_script envAlpha alphaTable FS.empty)).files
        (serviceFilename "alpha" 1) ≠ some "BODY1" := by decide

/-- C6 (amended): output files are named deterministically —
`temp_service_images/{category}_{index}.jpg` (index 1-based in list order)
by the service script, and the explicit filename from the table, under
`client/public`, by the stock script: in every world, every path a full
stock run writes is `client/public/<filename>` for some table entry.
For the table `{"alpha": [two URLs]}` a full service-script run on a fresh
filesystem exits 0 and leaves exactly the two files `alpha_1.jpg` and
`alpha_2.jpg`, each containing the placeholder text for its entry (not the
fetched body), whatever the HTTP responses are. -/
theorem C6_placeholder_output (env : Env) (fs : FS)
    (hw : ∀ p, env.writeFails p = false) (hf : ∀ p, fs.files p = none) :
    (∀ (envS : Env) (fsS : FS) (p : String),
      p ∈ writtenPaths (download_stock_images envS fsS).2 →
      p ∈ stockImages.map (fun it => public_dir ++ "/" ++ it.1)) ∧
    script_exit (service_script env alphaTable fs) = 0 ∧
    (resultFS (service_script env alphaTable fs)).files (serviceFilename "alpha" 1)
      = some (placeholderText "alpha" 1) ∧
    (resultFS (service_script env alphaTable fs)).files (serviceFilename "alpha" 2)
      = some (placeholderText "alpha" 2) ∧
    (∀ p, p ≠ serviceFilename "alpha" 1 → p ≠ serviceFilename "alpha" 2 →
      (resultFS (service_script env alphaTable fs)).files p = none) := by
  have hne : serviceFilename "alpha" 1 ≠ serviceFilename "alpha" 2 := by decide
  refine ⟨fun envS fsS p hp =>
    (stock_loop_writes_sublist envS stockImages fsS).subset hp, ?_⟩
  simp only [service_script, makedirs_exist_ok, alphaTable, service_categories,
    service_items, hw, if_false, Bool.false_eq_true, FS.write, script_exit,
    resultFS]
  norm_num
  refine ⟨fun h => absurd h hne, fun p hp1 hp2 => ?_⟩
  simp [hp1, hp2, hf]

/-- Witness for the amended C6 at a concrete world, also checking an
unrelated path stays absent and that a concrete stock-run write path is
the explicit filename of a table entry under `client/public`. -/
theorem C6_placeholder_output_witness :
    "client/public/diving.jpg"
      ∈ stockImages.map (fun it => public_dir ++ "/" ++ it.1) ∧
    script_exit (service_script envOk alphaTable FS.empty) = 0 ∧
    (resultFS (service_script envOk alphaTable FS.empty)).files
      (serviceFilename "alpha" 1) = some (placeholderText "alpha" 1) ∧
    (resultFS (service_script envOk alphaTable FS.empty)).files
      (serviceFilename "alpha" 2) = some (placeholderText "alpha" 2) ∧
    (resultFS (service_script envOk alphaTable FS.empty)).files
      "client/public/other.jpg" = none :=
  ⟨(C6_placeholder_output envOk FS.empty (fun _ => rfl) (fun _ => rfl)).1
     envOk FS.empty "client/public/diving.jpg" (by decide),
   (C6_placeholder_output envOk FS.empty (fun _ => rfl) (fun _ => rfl)).2.1,
   (C6_placeholder_output envOk FS.empty (fun _ => rfl) (fun _ => rfl)).2.2.1,
   (C6_placeholder_output envOk FS.empty (fun _ => rfl) (fun _ => rfl)).2.2.2.1,
   (C6_placeholder_output envOk FS.empty (fun _ => rfl) (fun _ => rfl)).2.2.2.2
     "client/public/other.jpg" (by decide) (by decide)⟩

/-- C7: in every world and for every table, a service-script run issues no
HTTP request at all, and every file write it performs stores the fixed
placeholder text determined by the category and 1-based index — never
downloaded bytes. -/
theorem C7_no_network_placeholder (env : Env) (table : List (String × List String))
    (fs : FS) (p c : String)
    (hin : Event.wrote p c ∈ resultEvents (service_script env table fs)) :
    requestedUrls (resultEvents (service_script env table fs)) = [] ∧
    ∃ cat n, p = serviceFilename cat n ∧ c = placeholderText cat n := by
  refine ⟨?_, (service_script_events env table fs _ hin).2 p c rfl⟩
  simp only [requestedUrls]
  rw [List.filterMap_eq_nil_iff]
  intro e he
  have h1 := (service_script_events env table fs e he).1
  cases e with
  | printed s => rfl
  | requested u => exact absurd rfl (h1 u)
  | wrote q d => rfl

/-- Witness for C7: a concrete run containing a concrete write event. -/
theorem C7_no_network_placeholder_witness :
    requestedUrls (resultEvents (service_script envOk alphaTable FS.empty)) = [] ∧
    ∃ cat n, serviceFilename "alpha" 1 = serviceFilename cat n ∧
      placeholderText "alpha" 1 = placeholderText cat n :=
  C7_no_network_placeholder envOk alphaTable FS.empty
    (serviceFilename "alpha" 1) (placeholderText "alpha" 1) (by decide)

/-- C8: in every world, a full stock-script run issues exactly one GET per
table entry, in table order (so each Image Request yields exactly one
Download Result and processing is sequential); the written paths of the
run never repeat, and every written path is one of the per-entry
destinations, which are pairwise distinct — each destination is written by
at most one call. -/
theorem C8_sequential_one_result (env : Env) (fs : FS) (p : String)
    (hp : p ∈ writtenPaths (download_stock_images env fs).2) :
    requestedUrls (download_stock_images env fs).2 = stockImages.map Prod.snd ∧
    (writtenPaths (download_stock_images env fs).2).Nodup ∧
    p ∈ stockImages.map (fun it => public_dir ++ "/" ++ it.1) ∧
    (stockImages.map (fun it => public_dir ++ "/" ++ it.1)).Nodup :=
  ⟨stock_loop_requests env stockImages fs,
   List.Nodup.sublist (stock_loop_writes_sublist env stockImages fs) (by decide),
   (stock_loop_writes_sublist env stockImages fs).subset hp,
   by decide⟩

/-- Witness for C8: the all-200 world writes the first destination. -/
theorem C8_sequential_one_result_witness :
    requestedUrls (download_stock_images envOk FS.empty).2
      = stockImages.map Prod.snd ∧
    (writtenPaths (download_stock_images envOk FS.empty).2).Nodup ∧
    "client/public/yacht-hero.jpg"
      ∈ stockImages.map (fun it => public_dir ++ "/" ++ it.1) ∧
    (stockImages.map (fun it => public_dir ++ "/" ++ it.1)).Nodup :=
  C8_sequential_one_result envOk FS.empty "client/public/yacht-hero.jpg" (by decide)

/-- C9: `download_image` touches the filesystem only inside its
status-200 branch: a raised transport error or any response with status
other than 200 (in particular every non-2xx) leaves the filesystem state
literally unchanged — no file, no directory; hence a fully failed stock
run ends with the filesystem it started with, creating no `client/public`
directory. -/
theorem C9_untouched_on_failure (env : Env) (url filename : String) (fs : FS) :
    (∀ msg, env.fetch url = .raised msg →
      (download_image env url filename fs).1 = fs) ∧
    (∀ status body, env.fetch url = .response status body → status ≠ 200 →
      (download_image env url filename fs).1 = fs) ∧
    (∀ (envA : Env) (fsA : FS), (∀ it ∈ stockImages, itemFails envA it.2) →
      (download_stock_images envA fsA).1 = fsA) := by
  refine ⟨fun msg h => ?_, fun status body h hs => ?_,
    fun envA fsA hfail => stock_loop_all_fail envA stockImages fsA hfail⟩
  · exact download_image_fails_unchanged env url filename fs (Or.inl ⟨msg, h⟩)
  · exact download_image_fails_unchanged env url filename fs
      (Or.inr ⟨status, body, h, hs⟩)

/-- Witness for C9: raise, 404, and a fully raising stock run, all on the
empty filesystem. -/
theorem C9_untouched_on_failure_witness :
    (download_image envAllRaise "u" "a.jpg" FS.empty).1 = FS.empty ∧
    (download_image env404 "u" "a.jpg" FS.empty).1 = FS.empty ∧
    (download_stock_images envAllRaise FS.empty).1 = FS.empty :=
  ⟨(C9_untouched_on_failure envAllRaise "u" "a.jpg" FS.empty).1
      "connection refused" rfl,
   (C9_untouched_on_failure env404 "u" "a.jpg" FS.empty).2.1 404 "not found"
      rfl (by norm_num),
   (C9_untouched_on_failure envAllRaise "u" "a.jpg" FS.empty).2.2 envAllRaise
      FS.empty (fun it _ => Or.inl ⟨"connection refused", rfl⟩)⟩

/-- C10: the service-script's final filesystem depends only on the table's
categories and list lengths: two runs over tables of identical shape but
arbitrarily different URL strings end in the same filesystem state, file
contents included. -/
theorem C10_url_noninterference (env : Env) (t1 t2 : List (String × List String))
    (fs : FS) (hshape : tableShape t1 = tableShape t2)
    (hw : ∀ p, env.writeFails p = false) :
    resultFS (service_script env t1 fs) = resultFS (service_script env t2 fs) := by
  obtain ⟨fsR, e1, e2, h1, h2⟩ := service_categories_shape env hw t1 t2
    ⟨fun q => if q = "temp_service_images" then true else fs.dirExists q, fs.files⟩
    hshape
  simp only [service_script, makedirs_exist_ok, h1, h2, resultFS]

/-- Witness for C10: same shape, different URLs, equal final filesystems. -/
theorem C10_url_noninterference_witness :
    resultFS (service_script envOk alphaTable FS.empty)
      = resultFS (service_script envOk alphaTableOther FS.empty) :=
  C10_url_noninterference envOk alphaTable alphaTableOther FS.empty
    (by decide) (fun _ => rfl)

end Dl
